import Mathlib

/-
Verification of the TSC frequency discovery utility (src/src/main.cpp).

The program has three parts relevant here:
  1. GetProcessorModelFamily (main.cpp:64-93): decodes CPUID(1).eax into an
     8-bit model and an 8-bit family, with extended-family / extended-model
     adjustments.
  2. GetTscHz (main.cpp:146-204): a two-tier TSC-frequency discovery,
     tier 1 from CPUID(0x15) plus a crystal lookup table, tier 2 from MSR
     0xCE with a bus-ratio multiplier table.
  3. The sampling loop in main (main.cpp:267-278), whose per-iteration
     duration computation divides a cycle delta by the discovered frequency.

Machine integers are modelled as Nat with explicit truncation where the C
types truncate: uint8_t stores are reduced mod 256, the uint64_t product in
tier 1 is reduced mod 2^64.  The C mask operations (x >> k) & 0x0f and
(x >> k) & 0xff are written ((x >>> k) % 16) and ((x >>> k) % 256), which
are the same functions on Nat.  Fallible or undefined behaviour is made
explicit: an integer division whose divisor is zero (undefined behaviour in
C++) is modelled as Option.none, and the hardware / OS environment
(CPUID leaf values, the MSR read outcome) is passed as explicit arguments.
-/

/-- Decoded family from CPUID(1).eax, mirroring main.cpp:72 and 75-76.
The base family is bits 8-11; when it equals the sentinel 0x0F the 8-bit
extended-family field (bits 20-27) is added.  The C variable holding the
family is uint8_t, so the addition wraps mod 256. -/
def decodedFamily (eax : Nat) : Nat :=
  if (eax >>> 8) % 16 = 0x0F then
    ((eax >>> 8) % 16 + (eax >>> 20) % 256) % 256
  else
    (eax >>> 8) % 16

/-- Decoded model from CPUID(1).eax, mirroring main.cpp:73 and 78-79.
The base model is bits 4-7; the 4-bit extended-model field (bits 16-19) is
shifted into the high nibble when the *already adjusted* family variable is
at least 6 (the family update at main.cpp:75-76 happens before the model
update at main.cpp:78-79 reads it).  The C variable is uint8_t, hence the
mod 256 (which is in fact never reached, the sum being at most 255). -/
def decodedModel (eax : Nat) : Nat :=
  if 6 ≤ decodedFamily eax then
    ((eax >>> 4) % 16 + ((eax >>> 16) % 16) * 16) % 256
  else
    (eax >>> 4) % 16

/-- GetProcessorModelFamily (main.cpp:64-93): the pair (model, family)
stored through the two out-parameters. -/
def GetProcessorModelFamily (eax : Nat) : Nat × Nat :=
  (decodedModel eax, decodedFamily eax)

/-- IsModelWestmere (main.cpp:95-108): the switch lists models 0x25, 0x2C,
0x2F. -/
def IsModelWestmere (model : Nat) : Bool :=
  model == 0x25 || model == 0x2C || model == 0x2F

/-- IsModelNehalem (main.cpp:110-125): the switch lists models 0x1E, 0x1F,
0x1A, 0x2E. -/
def IsModelNehalem (model : Nat) : Bool :=
  model == 0x1E || model == 0x1F || model == 0x1A || model == 0x2E

/-- The crystal-frequency lookup table inside GetTscHz (main.cpp:160-176):
the switch on the model that replaces a zero CPUID(0x15).ecx.  Models
0x4E and 0x5E map to 24 MHz, 0x5F to 25 MHz, 0x5C and 0x7A to 19.2 MHz,
every other model falls to the default branch and yields 0. -/
def crystalHzOfModel (model : Nat) : Nat :=
  if model = 0x4E then 24000000
  else if model = 0x5E then 24000000
  else if model = 0x5F then 25000000
  else if model = 0x5C then 19200000
  else if model = 0x7A then 19200000
  else 0

/-- Tier 1 of GetTscHz (main.cpp:151-184).  Arguments eax, ebx, ecx are the
values CPUID(0x15) returned (denominator, numerator, nominal crystal Hz).
The C code computes (uint64_t)ecx * ebx / eax whenever the (possibly
table-substituted) crystal value is non-zero, without checking eax: a zero
eax there is an integer division by zero, undefined behaviour in C++,
modelled as none.  The uint64_t product is reduced mod 2^64 exactly as the
machine does (for genuine 32-bit register values it never wraps). -/
def tier1TscHz (model maxLevel eax ebx ecx : Nat) : Option Nat :=
  if 0x15 ≤ maxLevel then
    if ebx ≠ 0 then
      if (if ecx = 0 then crystalHzOfModel model else ecx) ≠ 0 then
        if eax = 0 then
          none
        else
          some ((if ecx = 0 then crystalHzOfModel model else ecx) * ebx % 2 ^ 64 / eax)
      else
        some 0
    else
      some 0
  else
    some 0

/-- The tier-2 bus-ratio multiplier (main.cpp:188-192): 133 for Westmere or
Nehalem models, 100 otherwise. -/
def tier2Mult (model : Nat) : Nat :=
  if IsModelWestmere model || IsModelNehalem model then 133 else 100

/-- Tier 2 of GetTscHz (main.cpp:194-200).  The outcome of
ReadMsr(0xCE, &value) is passed as an Option: none models a failed read
(missing /dev/cpu/0/msr, denied permission, or short read), some v a
successful read returning v.  On success with v non-zero the code extracts
the ratio byte (value >> 8) & 0xff and computes reg * mult * 1E6; that C
expression goes through double arithmetic, but its value is an integer of
at most 255 * 133 * 10^6 < 2^53, so the double result and the conversion
back to uint64_t are exact and the Nat product below is its value. -/
def tier2TscHz (model : Nat) (msr : Option Nat) : Nat :=
  match msr with
  | none => 0
  | some v => if v ≠ 0 then ((v >>> 8) % 256) * tier2Mult model * 1000000 else 0

/-- GetTscHz (main.cpp:146-204).  The result pairs the returned tsc_hz with
a flag recording whether the tier-2 MSR path ran, i.e. whether ReadMsr was
called and hence an open of /dev/cpu/0/msr was attempted (main.cpp:131):
the C code enters that block exactly when tier 1 left tsc_hz at zero.
A none result propagates the tier-1 undefined behaviour. -/
def GetTscHz (model maxLevel eax ebx ecx : Nat) (msr : Option Nat) :
    Option (Nat × Bool) :=
  match tier1TscHz model maxLevel eax ebx ecx with
  | none => none
  | some t1 =>
    if t1 = 0 then
      some (tier2TscHz model msr, true)
    else
      some (t1, false)

/-- Classification of the IEEE double produced by the duration computation:
a finite value (recorded exactly as a rational; rounding is immaterial to
the claims proved here), positive infinity, or NaN. -/
inductive FloatClass where
  | finite (q : ℚ)
  | posInf
  | nan
deriving DecidableEq

/-- The per-iteration duration computation of the sampling loop
(main.cpp:275-277): duration = (double)diff / info.tscHz, printed
unconditionally.  IEEE double division by zero gives +infinity for a
positive dividend and NaN for a zero dividend; there is no zero-frequency
guard in the source, so the function always produces a FloatClass value
and has no way to report an unavailable result. -/
def loopDuration (diff tscHz : Nat) : FloatClass :=
  if tscHz = 0 then
    if diff = 0 then FloatClass.nan else FloatClass.posInf
  else
    FloatClass.finite ((diff : ℚ) / (tscHz : ℚ))

/-- C1: at maxLevel 0x15 with CPUID(0x15) returning denominator eax = 0,
numerator ebx = 2 and crystal ecx = 24000000, tier 1 reaches the division
(uint64_t)ecx * ebx / eax with a zero divisor: undefined behaviour (none),
not a clean tier failure.  The claimed zero-denominator guard is absent
from the code. -/
theorem tier1_zero_denominator_is_ub :
    tier1TscHz 0 0x15 0 2 24000000 = none := by
  decide

/-- C2: with a discovered frequency of zero and a cycle delta of 1000000,
the sampling-loop duration computation produces positive infinity and
presents it as the duration; the code has no unavailable branch. -/
theorem loopDuration_zero_hz_posInf :
    loopDuration 1000000 0 = FloatClass.posInf := by
  decide

/-- C8: whenever CPUID(0x15) reports a zero numerator (ebx = 0), tier 1
yields zero regardless of the denominator, the crystal value and the model,
and performs no division (in particular no undefined behaviour: the result
is some 0, never none). -/
theorem tier1_zero_numerator_fails (model maxLevel eax ecx : Nat) :
    tier1TscHz model maxLevel eax 0 ecx = some 0 := by
  unfold tier1TscHz
  split <;> simp

/-- C10: the stored family is held in 8-bit arithmetic: for every
CPUID(1).eax word it equals (base_family + extended_family when the base
family is the sentinel 0x0F, else base_family) reduced mod 256, where
base_family is bits 8-11 and extended_family is bits 20-27. -/
theorem decodedFamily_mod256_characterization (eax : Nat) :
    decodedFamily eax =
      ((eax >>> 8) % 16 +
        (if (eax >>> 8) % 16 = 0x0F then (eax >>> 20) % 256 else 0)) % 256 := by
  unfold decodedFamily
  by_cases h : (eax >>> 8) % 16 = 0x0F
  · simp [h]
  · have hlt : (eax >>> 8) % 16 < 256 := lt_trans (Nat.mod_lt _ (by norm_num)) (by norm_num)
    simp [h, Nat.mod_eq_of_lt hlt]

/-- C3: whenever tier 1 produces a non-zero frequency v, GetTscHz returns
exactly (v, false): the tier-2 block is skipped, so ReadMsr is never called
and no open of /dev/cpu/0/msr is attempted, whatever the MSR environment
would have returned. -/
theorem getTscHz_tier1_nonzero_skips_msr
    (model maxLevel eax ebx ecx v : Nat) (msr : Option Nat)
    (h1 : tier1TscHz model maxLevel eax ebx ecx = some v) (h2 : v ≠ 0) :
    GetTscHz model maxLevel eax ebx ecx msr = some (v, false) := by
  unfold GetTscHz
  rw [h1]
  simp [h2]

/-- Witness for C3: model 0x5E (Skylake) at maxLevel 0x15 with
CPUID(0x15) = (eax 2, ebx 100, ecx 0) resolves tier 1 through the crystal
table to 24000000 * 100 / 2 = 1200000000 Hz, and GetTscHz returns it with
the MSR-access flag false. -/
theorem getTscHz_tier1_nonzero_skips_msr_witness :
    GetTscHz 0x5E 0x15 2 100 0 (some 7777) = some (1200000000, false) :=
  getTscHz_tier1_nonzero_skips_msr 0x5E 0x15 2 100 0 1200000000 (some 7777)
    (by decide) (by decide)

/-- C4 counterexample: the number of model values selecting multiplier 133
is seven, not six: IsModelNehalem lists four variant codes (0x1E, 0x1F,
0x1A, 0x2E), not three. -/
theorem tier2Mult_seven_codes_not_six :
    ((List.range 256).filter (fun m => tier2Mult m = 133)).length = 7 ∧
      ((List.range 256).filter (fun m => tier2Mult m = 133)).length ≠ 6 := by
  constructor <;> decide

/-- C4 amended: exactly the seven legacy model codes 0x1A, 0x1E, 0x1F,
0x2E (Nehalem) and 0x25, 0x2C, 0x2F (Westmere) select multiplier 133;
every other model value selects 100. -/
theorem tier2Mult_characterization (m : Nat) :
    tier2Mult m =
      if m = 0x1A ∨ m = 0x1E ∨ m = 0x1F ∨ m = 0x25 ∨ m = 0x2C ∨ m = 0x2E ∨ m = 0x2F
      then 133 else 100 := by
  rcases Decidable.em
      (m = 0x1A ∨ m = 0x1E ∨ m = 0x1F ∨ m = 0x25 ∨ m = 0x2C ∨ m = 0x2E ∨ m = 0x2F) with h | h
  · rw [if_pos h]
    rcases h with rfl | rfl | rfl | rfl | rfl | rfl | rfl <;> decide
  · rw [if_neg h]
    push_neg at h
    obtain ⟨h1, h2, h3, h4, h5, h6, h7⟩ := h
    simp [tier2Mult, IsModelWestmere, IsModelNehalem, h1, h2, h3, h4, h5, h6, h7]

/-- C5 counterexample: the crystal lookup table has five non-zero entries,
not four: 0x4E, 0x5C, 0x5E, 0x5F, 0x7A. -/
theorem crystal_table_five_codes_not_four :
    ((List.range 256).filter (fun m => crystalHzOfModel m ≠ 0)).length = 5 ∧
      ((List.range 256).filter (fun m => crystalHzOfModel m ≠ 0)).length ≠ 4 := by
  constructor <;> decide

/-- C5 amended: the crystal table maps the five documented model codes to
their documented constants (0x4E, 0x5E to 24.0 MHz; 0x5F to 25.0 MHz;
0x5C, 0x7A to 19.2 MHz), and for every model outside these five the table
yields zero, so that with a reported zero crystal (ecx = 0) tier 1 yields
zero (fails) whatever the maxLevel, denominator and numerator are. -/
theorem crystal_table_characterization :
    crystalHzOfModel 0x4E = 24000000 ∧ crystalHzOfModel 0x5E = 24000000 ∧
    crystalHzOfModel 0x5F = 25000000 ∧
    crystalHzOfModel 0x5C = 19200000 ∧ crystalHzOfModel 0x7A = 19200000 ∧
    ∀ m, m ∉ ([0x4E, 0x5E, 0x5F, 0x5C, 0x7A] : List Nat) →
      crystalHzOfModel m = 0 ∧
      ∀ maxLevel eax ebx, tier1TscHz m maxLevel eax ebx 0 = some 0 := by
  refine ⟨rfl, rfl, rfl, rfl, rfl, ?_⟩
  intro m hm
  simp only [List.mem_cons, List.not_mem_nil, or_false, not_or] at hm
  obtain ⟨h1, h2, h3, h4, h5⟩ := hm
  have htab : crystalHzOfModel m = 0 := by
    simp [crystalHzOfModel, h1, h2, h3, h4, h5]
  refine ⟨htab, ?_⟩
  intro maxLevel eax ebx
  unfold tier1TscHz
  split
  · by_cases hb : ebx = 0
    · simp [hb]
    · simp [hb, htab]
  · rfl

/-- Witness for C5: model 0x03 is not one of the five table codes, its
table entry is zero, and tier 1 with ecx = 0 yields zero for it, for
instance at maxLevel 0x15, eax 7, ebx 9. -/
theorem crystal_table_characterization_witness :
    crystalHzOfModel 0x03 = 0 ∧ tier1TscHz 0x03 0x15 7 9 0 = some 0 :=
  ⟨(crystal_table_characterization.2.2.2.2.2 0x03 (by decide)).1,
    (crystal_table_characterization.2.2.2.2.2 0x03 (by decide)).2 0x15 7 9⟩

/-- C6 counterexample: for eax with base family 0x0F and extended-family
field 0xF1, the decoded family is 0x00, not 0x0F + 0xF1 = 0x100: the
uint8_t addition wraps mod 256, so the claimed plain sum does not hold. -/
theorem decodedFamily_wrap_counterexample :
    (((0xF1 * 2 ^ 20 + 0x0F * 2 ^ 8) >>> 8) % 16 = 0x0F) ∧
      decodedFamily (0xF1 * 2 ^ 20 + 0x0F * 2 ^ 8) = 0x00 ∧
      decodedFamily (0xF1 * 2 ^ 20 + 0x0F * 2 ^ 8) ≠
        0x0F + ((0xF1 * 2 ^ 20 + 0x0F * 2 ^ 8) >>> 20) % 256 := by
  refine ⟨by decide, by decide, by decide⟩

/-- C6 amended: whenever the base family field (bits 8-11) equals the
sentinel 0x0F, the decoded family equals (0x0F + extended_family) mod 256,
the extended-family field being bits 20-27. -/
theorem decodedFamily_extended_mod256 (eax : Nat)
    (h : (eax >>> 8) % 16 = 0x0F) :
    decodedFamily eax = (0x0F + (eax >>> 20) % 256) % 256 := by
  unfold decodedFamily
  rw [if_pos h, h]

/-- Witness for C6 amended: eax with base family 0x0F and extended field
0x02 decodes to family (0x0F + 0x02) mod 256 = 0x11. -/
theorem decodedFamily_extended_mod256_witness :
    decodedFamily (0x02 * 2 ^ 20 + 0x0F * 2 ^ 8) =
      (0x0F + ((0x02 * 2 ^ 20 + 0x0F * 2 ^ 8) >>> 20) % 256) % 256 :=
  decodedFamily_extended_mod256 (0x02 * 2 ^ 20 + 0x0F * 2 ^ 8) (by decide)

/-- C7 counterexample: for eax with base family 0x0F (which is at least 6),
base model 0x3, extended model 0x5 and extended family 0xF1, the decoded
model is 0x03, not 0x53: the code tests the already adjusted family
variable, which wrapped to 0x00 < 6, so the extended-model nibble is not
applied even though the base family field is at least 6. -/
theorem decodedModel_base_family_counterexample :
    (6 ≤ ((0xF1 * 2 ^ 20 + 0x5 * 2 ^ 16 + 0x0F * 2 ^ 8 + 0x3 * 2 ^ 4) >>> 8) % 16) ∧
      decodedModel (0xF1 * 2 ^ 20 + 0x5 * 2 ^ 16 + 0x0F * 2 ^ 8 + 0x3 * 2 ^ 4) = 0x03 ∧
      decodedModel (0xF1 * 2 ^ 20 + 0x5 * 2 ^ 16 + 0x0F * 2 ^ 8 + 0x3 * 2 ^ 4) ≠
        ((0xF1 * 2 ^ 20 + 0x5 * 2 ^ 16 + 0x0F * 2 ^ 8 + 0x3 * 2 ^ 4) >>> 4) % 16 +
          (((0xF1 * 2 ^ 20 + 0x5 * 2 ^ 16 + 0x0F * 2 ^ 8 + 0x3 * 2 ^ 4) >>> 16) % 16) * 16 := by
  refine ⟨by decide, by decide, by decide⟩

/-- C7 amended: the condition governing the extended-model adjustment is
the decoded family (after the extended-family addition, mod 256), not the
base family field: the decoded model is the base model nibble alone when
the decoded family is below 6, and the base nibble combined with the
extended-model field shifted into the high nibble when the decoded family
is at least 6. -/
theorem decodedModel_uses_decoded_family (eax : Nat) :
    decodedModel eax =
      if 6 ≤ decodedFamily eax then
        (eax >>> 4) % 16 + ((eax >>> 16) % 16) * 16
      else
        (eax >>> 4) % 16 := by
  unfold decodedModel
  by_cases h : 6 ≤ decodedFamily eax
  · rw [if_pos h, if_pos h]
    have h1 : (eax >>> 4) % 16 < 16 := Nat.mod_lt _ (by norm_num)
    have h2 : (eax >>> 16) % 16 < 16 := Nat.mod_lt _ (by norm_num)
    exact Nat.mod_eq_of_lt (by omega)
  · rw [if_neg h, if_neg h]

/-- C9: when tier 1 yields zero and the MSR 0xCE read succeeds with a
non-zero value v, GetTscHz returns the ratio byte (bits 8-15 of v) times
the bus multiplier times 1000000, an exact integer, with the MSR-access
flag true. -/
theorem getTscHz_tier2_formula
    (model maxLevel eax ebx ecx v : Nat)
    (h1 : tier1TscHz model maxLevel eax ebx ecx = some 0) (h2 : v ≠ 0) :
    GetTscHz model maxLevel eax ebx ecx (some v) =
      some (((v >>> 8) % 256) * tier2Mult model * 1000000, true) := by
  unfold GetTscHz
  rw [h1]
  simp [tier2TscHz, h2]

/-- Witness for C9: model 0 at maxLevel 0 (tier 1 skipped, hence zero) and
an MSR value with ratio byte 30 (v = 7680) and multiplier 100 gives
exactly 3000000000 Hz. -/
theorem getTscHz_tier2_formula_witness :
    GetTscHz 0 0 0 0 0 (some 7680) = some (3000000000, true) := by
  rw [getTscHz_tier2_formula 0 0 0 0 0 7680 (by decide) (by decide)]
  decide
